import Mathlib

/-!
Verification of the MCP conformance-test harness scripts of this repository
(`test_complete.py`, `test_final.py`, `test_mcp.py`, `test_permissions.py`,
`test_simple.py`, `test_tool_execution.py`, `debug_session.py`).

Each script spawns the collaborator process, writes newline-terminated
JSON-RPC request lines on its stdin and block-reads response lines from its
stdout.  We embed each script as a function from the collaborator behaviour
(a list of produced lines; the end of the list is end-of-stream, and a
`hang` item is a collaborator that never produces the next line) to the run
outcome: the ordered trace of events (requests written, lines read,
messages printed), whether a Python exception was caught, the return value,
and whether the `finally` block (terminate + wait) ran.

Python-level operations that the scripts use on parsed JSON values
(`k in v`, `v[k]`, `v.get(k, d)`, `v.lower()`, `len(v)`, iteration) are
modelled with their Python semantics, including the exceptions they raise
on values of the wrong shape.
-/

/-- A parsed JSON value (the result of a successful `json.loads`).
Objects are the ordered key-value lists produced by the parser; keys are
unique. -/
inductive Json where
  | null : Json
  | bool (b : Bool) : Json
  | num (n : Int) : Json
  | str (s : String) : Json
  | arr (xs : List Json) : Json
  | obj (kvs : List (String × Json)) : Json

/-- First value bound to key `k` (Python dict lookup on parser output). -/
def kvsFind : List (String × Json) → String → Option Json
  | [], _ => none
  | (k0, v) :: rest, k => if k0 = k then some v else kvsFind rest k

/-- Field lookup on an object; `none` on non-objects and missing keys. -/
def Json.get? : Json → String → Option Json
  | .obj kvs, k => kvsFind kvs k
  | _, _ => none

/-- The kinds of Python exception the scripts can raise. -/
inductive PyErr where
  | typeErr : PyErr
  | keyErr : PyErr
  | attrErr : PyErr
  | nameErr : PyErr
  | jsonErr : PyErr
  deriving DecidableEq

/-- `needleMatchesAt n h` is true when `h` starts with `n`. -/
def needleMatchesAt : List Char → List Char → Bool
  | [], _ => true
  | _ :: _, [] => false
  | n :: ns, h :: hs => (n = h) && needleMatchesAt ns hs

/-- Does the character list contain the needle as a contiguous run. -/
def hasSubList (needle : List Char) : List Char → Bool
  | [] => needle.isEmpty
  | h :: hs => needleMatchesAt needle (h :: hs) || hasSubList needle hs

/-- Python `needle in hay` on strings (substring test). -/
def strHasSub (hay needle : String) : Bool :=
  hasSubList needle.toList hay.toList

/-- Python `k in v` for a string `k`: key membership on dicts, substring
test on strings, element membership on lists, `TypeError` otherwise. -/
def pyIn (k : String) : Json → Except PyErr Bool
  | .obj kvs => .ok (kvsFind kvs k).isSome
  | .str s => .ok (strHasSub s k)
  | .arr xs => .ok (xs.any fun x => match x with | .str s => s = k | _ => false)
  | _ => .error .typeErr

/-- Python `v[k]` for a string key: dict lookup (`KeyError` when absent),
`TypeError` on any other value. -/
def pyIndex (j : Json) (k : String) : Except PyErr Json :=
  match j with
  | .obj kvs =>
    match kvsFind kvs k with
    | some v => .ok v
    | none => .error .keyErr
  | _ => .error .typeErr

/-- Python `v.lower()`: only strings have the method (`AttributeError`
otherwise).  The lowered text is kept as a character list. -/
def pyLower : Json → Except PyErr (List Char)
  | .str s => .ok (s.toList.map Char.toLower)
  | _ => .error .attrErr

/-- Python `v.get(k, d)`: only dicts have the method (`AttributeError`
otherwise). -/
def pyGet (j : Json) (k : String) (d : Json) : Except PyErr Json :=
  match j with
  | .obj kvs => .ok ((kvsFind kvs k).getD d)
  | _ => .error .attrErr

/-- Python `len(v)`: sized values only, `TypeError` otherwise. -/
def pyLen : Json → Except PyErr Nat
  | .str s => .ok s.length
  | .arr xs => .ok xs.length
  | .obj kvs => .ok kvs.length
  | _ => .error .typeErr

/-- The values produced by Python iteration `for x in v`: elements of a
list, one-character strings of a string, keys of a dict; `TypeError`
otherwise. -/
def iterElems : Json → Except PyErr (List Json)
  | .arr xs => .ok xs
  | .str s => .ok (s.toList.map fun c => .str c.toString)
  | .obj kvs => .ok (kvs.map fun kv => .str kv.1)
  | _ => .error .typeErr

/-!
Transport model.  The collaborator behaviour is a list of items: each
`line` is one newline-terminated line it writes to stdout (either valid
JSON text, or `garbage` text on which `json.loads` raises); end of the
list means it closed stdout (every further `readline` returns the empty
string); a `hang` item is a collaborator that never produces the next line,
on which the blocking `readline` never returns.
-/

/-- One line of collaborator output. -/
inductive LineContent where
  | jsonOf (j : Json) : LineContent
  | garbage : LineContent

/-- One item of collaborator behaviour. -/
inductive Item where
  | line (c : LineContent) : Item
  | hang : Item

/-- The result of one blocking `readline` call. -/
inductive ReadRes where
  | hung : ReadRes
  | eofLine : ReadRes
  | got (c : LineContent) : ReadRes

/-- Perform one `readline` against the remaining collaborator behaviour. -/
def takeLine : List Item → ReadRes × List Item
  | [] => (.eofLine, [])
  | .hang :: _ => (.hung, [])
  | .line c :: rest => (.got c, rest)

/-- One observable event of a run: a request line written to the process
stdin, a completed read of a response line, or a printed message (recorded
as a fixed label per print statement; interpolated data is elided). -/
inductive Ev where
  | send (req : Json) : Ev
  | recv : Ev
  | out (lbl : String) : Ev

/-- How a run ended: blocked forever on a read, or returned, recording the
exception caught by the generic handler (if any) and the Python return
value (for scripts that return one). -/
inductive Outcome where
  | diverged : Outcome
  | done (exc : Option PyErr) (ret : Option Bool) : Outcome
  deriving DecidableEq

/-- The full observable outcome of one script run. -/
structure RunOut where
  events : List Ev
  outcome : Outcome
  shutdown : Bool

/-- Prepend already-emitted events to the rest of a run. -/
def withPre (pre : List Ev) (r : RunOut) : RunOut :=
  ⟨pre ++ r.events, r.outcome, r.shutdown⟩

/-- The id carried by a sent request line (requests are sent as objects
with a numeric id). -/
def evId : Ev → Option Int
  | .send j =>
    match j.get? "id" with
    | some (.num n) => some n
    | _ => none
  | _ => none

/-- The ids of the requests sent during a run, in order. -/
def sentIds : List Ev → List Int
  | [] => []
  | e :: es =>
    match evId e with
    | some i => i :: sentIds es
    | none => sentIds es

/-- The request lines sent during a run, in order. -/
def sentJs : List Ev → List Json
  | [] => []
  | .send j :: es => j :: sentJs es
  | _ :: es => sentJs es

/-- Whether a printed label occurs in a trace. -/
def hasLbl (evs : List Ev) (l : String) : Bool :=
  evs.any fun e => match e with | .out t => t = l | _ => false

/-- Scans a trace keeping the in-flight flag: a request may only be written
when no request is outstanding, and a completed read resolves the
outstanding request.  `noPip f evs` is true when the trace never writes a
second request while one is in flight, starting from flag `f`. -/
def noPip : Bool → List Ev → Bool
  | _, [] => true
  | f, .send _ :: es => !f && noPip true es
  | _, .recv :: es => noPip false es
  | f, .out _ :: es => noPip f es

/-- The list is exactly `n, n+1, n+2, ...` for its length. -/
def consecFrom : List Int → Int → Bool
  | [], _ => true
  | i :: is, n => i = n && consecFrom is (n + 1)

/-- A JSON-RPC request line as every script builds it:
`json.dumps` of the dict with keys jsonrpc, id, method, params. -/
def mkReq (i : Int) (m : String) (p : Json) : Json :=
  .obj [("jsonrpc", .str "2.0"), ("id", .num i), ("method", .str m), ("params", p)]

/-- The full initialize params used by test_complete, test_final, test_mcp,
test_simple and test_permissions (clientInfo name varies). -/
def fullInitParams (n : String) : Json :=
  .obj [("protocolVersion", .str "2024-11-05"), ("capabilities", .obj []),
        ("clientInfo", .obj [("name", .str n), ("version", .str "1.0.0")])]

/-- session/create params with client name and version only. -/
def sessionParamsBasic : Json :=
  .obj [("client_name", .str "test-client"), ("client_version", .str "1.0.0")]

/-- tools/call params for list_directory. -/
def listDirParams : Json :=
  .obj [("name", .str "list_directory"),
        ("arguments", .obj [("path", .str "."), ("max_depth", .num 1)])]

/-- tools/call params for create_block in test_permissions. -/
def createBlockParams : Json :=
  .obj [("name", .str "create_block"),
        ("arguments", .obj [("name", .str "Test Permission Block"),
          ("description", .str "Testing if block creation works with current permissions")])]

/-- tools/call params for list_blocks in test_permissions. -/
def listBlocksParams : Json :=
  .obj [("name", .str "list_blocks"), ("arguments", .obj [])]

/-- tools/call params for read_file in test_final. -/
def readFileParams : Json :=
  .obj [("name", .str "read_file"),
        ("arguments", .obj [("path", .str "Cargo.toml"), ("max_size", .num 1000)])]

/-- session/create params of test_final; connection_time is the current
clock read, passed in as a parameter of the run. -/
def finSessionParams (now : Int) : Json :=
  .obj [("client_name", .str "test-client"), ("client_version", .str "1.0.0"),
        ("user_id", .str "test-user"), ("capabilities", .arr [.str "tools"]),
        ("connection_time", .num now)]

/-!
test_complete.py — test_complete(): initialize, session/create, tools/call
list_directory, with hard-coded ids 1, 2, 3; generic except handler prints
an error; finally terminates and waits on the child process.
-/

/-- The initialize request of test_complete.py (id 1). -/
def compInit : Json := mkReq 1 "initialize" (fullInitParams "test-client")

/-- The session/create request of test_complete.py (id 2). -/
def compSession : Json := mkReq 2 "session/create" sessionParamsBasic

/-- The tools/call list_directory request of test_complete.py (id 3). -/
def compTool : Json := mkReq 3 "tools/call" listDirParams

/-- Label of the print that reports initialize status in test_complete.py
and test_final.py: OK when the response has a result member. -/
def initStatusLbl (b : Bool) : String :=
  if b then "Initialize OK" else "Initialize ERROR"

/-- Step 3 of test_complete.py: send the tools/call request, read and parse
the response, report on its result member. -/
def tcTool (inp : List Item) : RunOut :=
  match takeLine inp with
  | (.hung, _) => ⟨[.send compTool], .diverged, false⟩
  | (.eofLine, _) =>
      ⟨[.send compTool, .recv, .out "Error"], .done (some .jsonErr) none, true⟩
  | (.got .garbage, _) =>
      ⟨[.send compTool, .recv, .out "Error"], .done (some .jsonErr) none, true⟩
  | (.got (.jsonOf j3), _) =>
    match pyIn "result" j3 with
    | .error e => ⟨[.send compTool, .recv, .out "Error"], .done (some e) none, true⟩
    | .ok true =>
      match pyIndex j3 "result" with
      | .error e =>
          ⟨[.send compTool, .recv, .out "Tool execution successful", .out "Error"],
            .done (some e) none, true⟩
      | .ok r =>
        match pyIn "files" r with
        | .error e =>
            ⟨[.send compTool, .recv, .out "Tool execution successful", .out "Error"],
              .done (some e) none, true⟩
        | .ok true =>
          match pyIndex r "files" with
          | .error e =>
              ⟨[.send compTool, .recv, .out "Tool execution successful", .out "Error"],
                .done (some e) none, true⟩
          | .ok fv =>
            match pyLen fv with
            | .error e =>
                ⟨[.send compTool, .recv, .out "Tool execution successful", .out "Error"],
                  .done (some e) none, true⟩
            | .ok _ =>
                ⟨[.send compTool, .recv, .out "Tool execution successful",
                    .out "Found files directories"], .done none none, true⟩
        | .ok false =>
            ⟨[.send compTool, .recv, .out "Tool execution successful"],
              .done none none, true⟩
    | .ok false =>
        ⟨[.send compTool, .recv, .out "Tool execution failed"], .done none none, true⟩

/-- Step 2 of test_complete.py: send session/create, parse the response;
on a result member, bind session_id and run step 3; otherwise report the
failure and end the conversation (step 3 is not executed). -/
def tcSession (inp : List Item) : RunOut :=
  match takeLine inp with
  | (.hung, _) => ⟨[.send compSession], .diverged, false⟩
  | (.eofLine, _) =>
      ⟨[.send compSession, .recv, .out "Error"], .done (some .jsonErr) none, true⟩
  | (.got .garbage, _) =>
      ⟨[.send compSession, .recv, .out "Error"], .done (some .jsonErr) none, true⟩
  | (.got (.jsonOf j2), rest) =>
    match pyIn "result" j2 with
    | .error e => ⟨[.send compSession, .recv, .out "Error"], .done (some e) none, true⟩
    | .ok true =>
      match pyIndex j2 "result" with
      | .error e => ⟨[.send compSession, .recv, .out "Error"], .done (some e) none, true⟩
      | .ok rv =>
        match pyIndex rv "session_id" with
        | .error e =>
            ⟨[.send compSession, .recv, .out "Error"], .done (some e) none, true⟩
        | .ok _ =>
            withPre [.send compSession, .recv, .out "Session created"] (tcTool rest)
    | .ok false =>
        ⟨[.send compSession, .recv, .out "Session creation failed"],
          .done none none, true⟩

/-- test_complete() of test_complete.py. -/
def test_complete (inp : List Item) : RunOut :=
  match takeLine inp with
  | (.hung, _) => ⟨[.send compInit], .diverged, false⟩
  | (.eofLine, _) =>
      ⟨[.send compInit, .recv, .out "Error"], .done (some .jsonErr) none, true⟩
  | (.got .garbage, _) =>
      ⟨[.send compInit, .recv, .out "Error"], .done (some .jsonErr) none, true⟩
  | (.got (.jsonOf j1), rest) =>
    match pyIn "result" j1 with
    | .error e => ⟨[.send compInit, .recv, .out "Error"], .done (some e) none, true⟩
    | .ok b => withPre [.send compInit, .recv, .out (initStatusLbl b)] (tcSession rest)

/-!
test_final.py — test_mcp(): initialize, session/create (with user_id,
capabilities and connection_time = int(time.time()), passed in as `now`),
tools/list, tools/call read_file; ids 1, 2, 3, 4.
-/

/-- The initialize request of test_final.py (id 1). -/
def finInit : Json := mkReq 1 "initialize" (fullInitParams "test-client")

/-- The session/create request of test_final.py (id 2). -/
def finSession (now : Int) : Json := mkReq 2 "session/create" (finSessionParams now)

/-- The tools/list request of test_final.py (id 3). -/
def finTools : Json := mkReq 3 "tools/list" (.obj [])

/-- The tools/call read_file request of test_final.py (id 4). -/
def finRead : Json := mkReq 4 "tools/call" readFileParams

/-- Step 4 of test_final.py: tools/call read_file. -/
def tfRead (inp : List Item) : RunOut :=
  match takeLine inp with
  | (.hung, _) => ⟨[.send finRead], .diverged, false⟩
  | (.eofLine, _) =>
      ⟨[.send finRead, .recv, .out "Error"], .done (some .jsonErr) none, true⟩
  | (.got .garbage, _) =>
      ⟨[.send finRead, .recv, .out "Error"], .done (some .jsonErr) none, true⟩
  | (.got (.jsonOf j4), _) =>
    match pyIn "result" j4 with
    | .error e => ⟨[.send finRead, .recv, .out "Error"], .done (some e) none, true⟩
    | .ok true =>
      match pyIndex j4 "result" with
      | .error e =>
          ⟨[.send finRead, .recv, .out "File read successful", .out "Error"],
            .done (some e) none, true⟩
      | .ok r =>
        match pyGet r "content" (.str "") with
        | .error e =>
            ⟨[.send finRead, .recv, .out "File read successful", .out "Error"],
              .done (some e) none, true⟩
        | .ok c =>
          match pyLen c with
          | .error e =>
              ⟨[.send finRead, .recv, .out "File read successful", .out "Error"],
                .done (some e) none, true⟩
          | .ok _ =>
              ⟨[.send finRead, .recv, .out "File read successful",
                  .out "Read characters"], .done none none, true⟩
    | .ok false =>
        ⟨[.send finRead, .recv, .out "File read failed"], .done none none, true⟩

/-- Step 3 of test_final.py: tools/list; on a result member, bind tools and
run step 4; otherwise report the failure and stop. -/
def tfTools (inp : List Item) : RunOut :=
  match takeLine inp with
  | (.hung, _) => ⟨[.send finTools], .diverged, false⟩
  | (.eofLine, _) =>
      ⟨[.send finTools, .recv, .out "Error"], .done (some .jsonErr) none, true⟩
  | (.got .garbage, _) =>
      ⟨[.send finTools, .recv, .out "Error"], .done (some .jsonErr) none, true⟩
  | (.got (.jsonOf j3), rest) =>
    match pyIn "result" j3 with
    | .error e => ⟨[.send finTools, .recv, .out "Error"], .done (some e) none, true⟩
    | .ok true =>
      match pyIndex j3 "result" with
      | .error e => ⟨[.send finTools, .recv, .out "Error"], .done (some e) none, true⟩
      | .ok rv =>
        match pyIndex rv "tools" with
        | .error e =>
            ⟨[.send finTools, .recv, .out "Error"], .done (some e) none, true⟩
        | .ok t =>
          match pyLen t with
          | .error e =>
              ⟨[.send finTools, .recv, .out "Error"], .done (some e) none, true⟩
          | .ok _ =>
              withPre [.send finTools, .recv, .out "Listed tools"] (tfRead rest)
    | .ok false =>
        ⟨[.send finTools, .recv, .out "Tools list failed"], .done none none, true⟩

/-- Step 2 of test_final.py: session/create; on a result member, bind
session_id and run step 3; otherwise report the failure and stop. -/
def tfSession (now : Int) (inp : List Item) : RunOut :=
  match takeLine inp with
  | (.hung, _) => ⟨[.send (finSession now)], .diverged, false⟩
  | (.eofLine, _) =>
      ⟨[.send (finSession now), .recv, .out "Error"], .done (some .jsonErr) none, true⟩
  | (.got .garbage, _) =>
      ⟨[.send (finSession now), .recv, .out "Error"], .done (some .jsonErr) none, true⟩
  | (.got (.jsonOf j2), rest) =>
    match pyIn "result" j2 with
    | .error e =>
        ⟨[.send (finSession now), .recv, .out "Error"], .done (some e) none, true⟩
    | .ok true =>
      match pyIndex j2 "result" with
      | .error e =>
          ⟨[.send (finSession now), .recv, .out "Error"], .done (some e) none, true⟩
      | .ok rv =>
        match pyIndex rv "session_id" with
        | .error e =>
            ⟨[.send (finSession now), .recv, .out "Error"], .done (some e) none, true⟩
        | .ok _ =>
            withPre [.send (finSession now), .recv, .out "Session created"] (tfTools rest)
    | .ok false =>
        ⟨[.send (finSession now), .recv, .out "Session creation failed"],
          .done none none, true⟩

/-- test_mcp() of test_final.py. -/
def test_mcp (now : Int) (inp : List Item) : RunOut :=
  match takeLine inp with
  | (.hung, _) => ⟨[.send finInit], .diverged, false⟩
  | (.eofLine, _) =>
      ⟨[.send finInit, .recv, .out "Error"], .done (some .jsonErr) none, true⟩
  | (.got .garbage, _) =>
      ⟨[.send finInit, .recv, .out "Error"], .done (some .jsonErr) none, true⟩
  | (.got (.jsonOf j1), rest) =>
    match pyIn "result" j1 with
    | .error e => ⟨[.send finInit, .recv, .out "Error"], .done (some e) none, true⟩
    | .ok b =>
        withPre [.send finInit, .recv, .out (initStatusLbl b)] (tfSession now rest)

/-!
test_mcp.py — test_mcp_server(): initialize then tools/list, ids 1 and 2.
Each response line is parsed only when the line is non-empty; an empty
line (end of stream) just prints a notice and the script continues.
-/

/-- The initialize request of test_mcp.py (id 1). -/
def mcpInit : Json := mkReq 1 "initialize" (fullInitParams "test-client")

/-- The tools/list request of test_mcp.py (id 2). -/
def mcpTools : Json := mkReq 2 "tools/list" (.obj [])

/-- Step 2 of test_mcp.py: tools/list. -/
def tmsTools (inp : List Item) : RunOut :=
  match takeLine inp with
  | (.hung, _) => ⟨[.out "Sending tools list request", .send mcpTools], .diverged, false⟩
  | (.eofLine, _) =>
      ⟨[.out "Sending tools list request", .send mcpTools, .recv,
          .out "No response received"], .done none none, true⟩
  | (.got .garbage, _) =>
      ⟨[.out "Sending tools list request", .send mcpTools, .recv, .out "Error"],
        .done (some .jsonErr) none, true⟩
  | (.got (.jsonOf _), _) =>
      ⟨[.out "Sending tools list request", .send mcpTools, .recv,
          .out "Tools list response"], .done none none, true⟩

/-- test_mcp_server() of test_mcp.py. -/
def test_mcp_server (inp : List Item) : RunOut :=
  match takeLine inp with
  | (.hung, _) => ⟨[.out "Sending initialize request", .send mcpInit], .diverged, false⟩
  | (.eofLine, rest) =>
      withPre [.out "Sending initialize request", .send mcpInit, .recv,
        .out "No response received"] (tmsTools rest)
  | (.got .garbage, _) =>
      ⟨[.out "Sending initialize request", .send mcpInit, .recv, .out "Error"],
        .done (some .jsonErr) none, true⟩
  | (.got (.jsonOf _), rest) =>
      withPre [.out "Sending initialize request", .send mcpInit, .recv,
        .out "Initialize response"] (tmsTools rest)

/-!
debug_session.py — debug_session(): initialize then session/create, both
with empty params, ids 1 and 2.  The raw response lines are printed without
parsing, so no step can raise.
-/

/-- The initialize request of debug_session.py (id 1): empty params. -/
def dbgInit : Json := mkReq 1 "initialize" (.obj [])

/-- The session/create request of debug_session.py (id 2): empty params. -/
def dbgSession : Json := mkReq 2 "session/create" (.obj [])

/-- Step 2 of debug_session.py. -/
def dsSession (inp : List Item) : RunOut :=
  match takeLine inp with
  | (.hung, _) => ⟨[.send dbgSession], .diverged, false⟩
  | (_, _) =>
      ⟨[.send dbgSession, .recv, .out "Session response"], .done none none, true⟩

/-- debug_session() of debug_session.py. -/
def debug_session (inp : List Item) : RunOut :=
  match takeLine inp with
  | (.hung, _) => ⟨[.send dbgInit], .diverged, false⟩
  | (_, rest) =>
      withPre [.send dbgInit, .recv, .out "Init response"] (dsSession rest)

/-!
test_tool_execution.py — test_tool_execution(): initialize (empty params,
response line read but never parsed), session/create, tools/call
list_directory; ids 1, 2, 3.
-/

/-- The initialize request of test_tool_execution.py (id 1): empty params. -/
def teInit : Json := mkReq 1 "initialize" (.obj [])

/-- The session/create request of test_tool_execution.py (id 2). -/
def teSessionReq : Json := mkReq 2 "session/create" sessionParamsBasic

/-- The tools/call list_directory request of test_tool_execution.py (id 3). -/
def teToolReq : Json := mkReq 3 "tools/call" listDirParams

/-- Step 3 of test_tool_execution.py: tools/call list_directory. -/
def teTool (inp : List Item) : RunOut :=
  match takeLine inp with
  | (.hung, _) => ⟨[.send teToolReq], .diverged, false⟩
  | (.eofLine, _) =>
      ⟨[.send teToolReq, .recv, .out "Error"], .done (some .jsonErr) none, true⟩
  | (.got .garbage, _) =>
      ⟨[.send teToolReq, .recv, .out "Error"], .done (some .jsonErr) none, true⟩
  | (.got (.jsonOf j3), _) =>
    match pyIn "result" j3 with
    | .error e => ⟨[.send teToolReq, .recv, .out "Error"], .done (some e) none, true⟩
    | .ok true =>
      match pyIndex j3 "result" with
      | .error e =>
          ⟨[.send teToolReq, .recv, .out "Tool execution successful", .out "Error"],
            .done (some e) none, true⟩
      | .ok r =>
        match pyGet r "files" (.arr []) with
        | .error e =>
            ⟨[.send teToolReq, .recv, .out "Tool execution successful", .out "Error"],
              .done (some e) none, true⟩
        | .ok fv =>
          match pyLen fv with
          | .error e =>
              ⟨[.send teToolReq, .recv, .out "Tool execution successful", .out "Error"],
                .done (some e) none, true⟩
          | .ok _ =>
              ⟨[.send teToolReq, .recv, .out "Tool execution successful",
                  .out "Directory contents items"], .done none none, true⟩
    | .ok false =>
        ⟨[.send teToolReq, .recv, .out "Tool execution failed"], .done none none, true⟩

/-- Step 2 of test_tool_execution.py: session/create; the response is
parsed and indexed as response result session_id with no membership check,
so a failed session step raises and aborts the rest (step 3 is not
executed). -/
def teSession (inp : List Item) : RunOut :=
  match takeLine inp with
  | (.hung, _) => ⟨[.send teSessionReq], .diverged, false⟩
  | (.eofLine, _) =>
      ⟨[.send teSessionReq, .recv, .out "Error"], .done (some .jsonErr) none, true⟩
  | (.got .garbage, _) =>
      ⟨[.send teSessionReq, .recv, .out "Error"], .done (some .jsonErr) none, true⟩
  | (.got (.jsonOf j2), rest) =>
    match pyIndex j2 "result" with
    | .error e => ⟨[.send teSessionReq, .recv, .out "Error"], .done (some e) none, true⟩
    | .ok rv =>
      match pyIndex rv "session_id" with
      | .error e =>
          ⟨[.send teSessionReq, .recv, .out "Error"], .done (some e) none, true⟩
      | .ok _ => withPre [.send teSessionReq, .recv, .out "Created session"] (teTool rest)

/-- test_tool_execution() of test_tool_execution.py.  The initialize
response line is read but never parsed or checked. -/
def test_tool_execution (inp : List Item) : RunOut :=
  match takeLine inp with
  | (.hung, _) => ⟨[.send teInit], .diverged, false⟩
  | (_, rest) => withPre [.send teInit, .recv, .out "Initialized"] (teSession rest)

/-!
test_simple.py — test_basic_functionality(): initialize then tools/list,
ids 1 and 2.  The final summary print statements sit after the tools/list
if-else; the name tools is bound only in the success branch, so the second
summary statement raises NameError when tools/list did not return a
result.
-/

/-- The initialize request of test_simple.py (id 1). -/
def simpInit : Json := mkReq 1 "initialize" (fullInitParams "test-client")

/-- The tools/list request of test_simple.py (id 2). -/
def simpTools : Json := mkReq 2 "tools/list" (.obj [])

/-- Turn a list of printed labels into trace events. -/
def outsOf (ls : List String) : List Ev :=
  ls.map Ev.out

/-- The per-tool loop of test_simple.py and test_permissions.py: printing
name and description of each discovered tool, raising on entries that are
not objects with both keys.  Returns the labels printed before a failure,
or all labels. -/
def toolLoop (lbl : String) : List Json → Except (PyErr × List String) (List String)
  | [] => .ok []
  | e :: es =>
    match pyIndex e "name" with
    | .error er => .error (er, [])
    | .ok _ =>
      match pyIndex e "description" with
      | .error er => .error (er, [])
      | .ok _ =>
        match toolLoop lbl es with
        | .error (er, ls) => .error (er, lbl :: ls)
        | .ok ls => .ok (lbl :: ls)

/-- Step 2 of test_simple.py plus the final summary statements.  In the
else branch the summary runs with tools unbound: the first summary print
has no interpolation and succeeds, the second evaluates len(tools) and
raises NameError.  (When tools is bound, len(tools) already succeeded at
the Found print, so the summary cannot raise.) -/
def tsTools (inp : List Item) : RunOut :=
  match takeLine inp with
  | (.hung, _) => ⟨[.out "2 Testing tools list", .send simpTools], .diverged, false⟩
  | (.eofLine, _) =>
      ⟨[.out "2 Testing tools list", .send simpTools, .recv, .out "Error"],
        .done (some .jsonErr) none, true⟩
  | (.got .garbage, _) =>
      ⟨[.out "2 Testing tools list", .send simpTools, .recv, .out "Error"],
        .done (some .jsonErr) none, true⟩
  | (.got (.jsonOf j2), _) =>
    match pyIn "result" j2 with
    | .error e =>
        ⟨[.out "2 Testing tools list", .send simpTools, .recv, .out "Error"],
          .done (some e) none, true⟩
    | .ok true =>
      match pyIndex j2 "result" with
      | .error e =>
          ⟨[.out "2 Testing tools list", .send simpTools, .recv, .out "Error"],
            .done (some e) none, true⟩
      | .ok rv =>
        match pyIndex rv "tools" with
        | .error e =>
            ⟨[.out "2 Testing tools list", .send simpTools, .recv, .out "Error"],
              .done (some e) none, true⟩
        | .ok tl =>
          match pyLen tl with
          | .error e =>
              ⟨[.out "2 Testing tools list", .send simpTools, .recv, .out "Error"],
                .done (some e) none, true⟩
          | .ok _ =>
            match iterElems tl with
            | .error e =>
                ⟨[.out "2 Testing tools list", .send simpTools, .recv,
                    .out "Found tools count", .out "Error"], .done (some e) none, true⟩
            | .ok elems =>
              match toolLoop "tool name and description" elems with
              | .error (er, ls) =>
                  ⟨[.out "2 Testing tools list", .send simpTools, .recv,
                      .out "Found tools count"] ++ outsOf ls ++ [.out "Error"],
                    .done (some er) none, true⟩
              | .ok ls =>
                  ⟨[.out "2 Testing tools list", .send simpTools, .recv,
                      .out "Found tools count"] ++ outsOf ls ++
                    [.out "Basic MCP functionality working",
                     .out "Available tools filesystem tools",
                     .out "Ready for Claude Code integration via stdio transport"],
                    .done none none, true⟩
    | .ok false =>
        ⟨[.out "2 Testing tools list", .send simpTools, .recv,
            .out "Failed tools list", .out "Basic MCP functionality working",
            .out "Error"],
          .done (some .nameErr) none, true⟩

/-- test_basic_functionality() of test_simple.py. -/
def test_basic_functionality (inp : List Item) : RunOut :=
  match takeLine inp with
  | (.hung, _) =>
      ⟨[.out "Testing Forge MCP Server", .out "1 Testing initialization",
          .send simpInit], .diverged, false⟩
  | (.eofLine, _) =>
      ⟨[.out "Testing Forge MCP Server", .out "1 Testing initialization",
          .send simpInit, .recv, .out "Error"], .done (some .jsonErr) none, true⟩
  | (.got .garbage, _) =>
      ⟨[.out "Testing Forge MCP Server", .out "1 Testing initialization",
          .send simpInit, .recv, .out "Error"], .done (some .jsonErr) none, true⟩
  | (.got (.jsonOf j1), rest) =>
    match pyIn "result" j1 with
    | .error e =>
        ⟨[.out "Testing Forge MCP Server", .out "1 Testing initialization",
            .send simpInit, .recv, .out "Error"], .done (some e) none, true⟩
    | .ok true =>
      match pyIndex j1 "result" with
      | .error e =>
          ⟨[.out "Testing Forge MCP Server", .out "1 Testing initialization",
              .send simpInit, .recv, .out "Error"], .done (some e) none, true⟩
      | .ok rv =>
        match pyIndex rv "serverInfo" with
        | .error e =>
            ⟨[.out "Testing Forge MCP Server", .out "1 Testing initialization",
                .send simpInit, .recv, .out "Error"], .done (some e) none, true⟩
        | .ok si =>
          match pyIndex si "name" with
          | .error e =>
              ⟨[.out "Testing Forge MCP Server", .out "1 Testing initialization",
                  .send simpInit, .recv, .out "Error"], .done (some e) none, true⟩
          | .ok _ =>
            match pyIndex si "version" with
            | .error e =>
                ⟨[.out "Testing Forge MCP Server", .out "1 Testing initialization",
                    .send simpInit, .recv, .out "Error"], .done (some e) none, true⟩
            | .ok _ =>
              match pyIndex rv "protocolVersion" with
              | .error e =>
                  ⟨[.out "Testing Forge MCP Server", .out "1 Testing initialization",
                      .send simpInit, .recv, .out "Server name and version",
                      .out "Error"], .done (some e) none, true⟩
              | .ok _ =>
                  withPre [.out "Testing Forge MCP Server",
                    .out "1 Testing initialization", .send simpInit, .recv,
                    .out "Server name and version", .out "Protocol version"]
                    (tsTools rest)
    | .ok false =>
        ⟨[.out "Testing Forge MCP Server", .out "1 Testing initialization",
            .send simpInit, .recv, .out "Failed initialize"], .done none none, true⟩

/-!
test_permissions.py — test_mcp_permissions(): initialize, tools/list,
tools/call create_block (expected to be denied), tools/call list_blocks
(expected to succeed); ids 1, 2, 3, 4.  Returns False on a missing early
response or on a caught exception, True otherwise; __main__ exits with
code 1 when it returned False, code 0 otherwise.
-/

/-- The initialize request of test_permissions.py (id 1). -/
def permInit : Json := mkReq 1 "initialize" (fullInitParams "permission-test-client")

/-- The tools/list request of test_permissions.py (id 2). -/
def permTools : Json := mkReq 2 "tools/list" (.obj [])

/-- The tools/call create_block request of test_permissions.py (id 3). -/
def permCreate : Json := mkReq 3 "tools/call" createBlockParams

/-- The tools/call list_blocks request of test_permissions.py (id 4). -/
def permList : Json := mkReq 4 "tools/call" listBlocksParams

/-- Evaluation of the create_block response in test_permissions.py (step
3): on an error member, print the message, then pass exactly when the
lowered message contains the substring permission; on a result member the
unauthorized call succeeded, which the script reports as a failure.
Returns the printed labels and the exception raised, if any. -/
def classifyCreateBlock (j : Json) : List String × Option PyErr :=
  match pyIn "error" j with
  | .error e => ([], some e)
  | .ok true =>
    match pyIndex j "error" with
    | .error e => ([], some e)
    | .ok ej =>
      match pyIndex ej "message" with
      | .error e => ([], some e)
      | .ok m =>
        match pyLower m with
        | .error e => (["Expected permission error"], some e)
        | .ok s =>
          if hasSubList "permission".toList s then
            (["Expected permission error",
              "Permission system is working - correctly blocking unauthorized access"],
             none)
          else
            (["Expected permission error",
              "Unexpected error not permission-related"], none)
  | .ok false =>
    match pyIn "result" j with
    | .error e => ([], some e)
    | .ok true =>
        (["Block creation succeeded - permissions may be too permissive",
          "Result"], none)
    | .ok false => ([], none)

/-- Evaluation of the list_blocks response in test_permissions.py (step
4): an error member is reported as a failure; a result member passes.  The
inner try/except around the block-count parse only chooses between two
diagnostic prints and cannot raise; it is recorded as one detail label. -/
def classifyListBlocks (j : Json) : List String × Option PyErr :=
  match pyIn "error" j with
  | .error e => ([], some e)
  | .ok true =>
    match pyIndex j "error" with
    | .error e => ([], some e)
    | .ok ej =>
      match pyIndex ej "message" with
      | .error e => ([], some e)
      | .ok _ => (["List blocks error"], none)
  | .ok false =>
    match pyIn "result" j with
    | .error e => ([], some e)
    | .ok true =>
        (["List blocks succeeded - read permission is working",
          "Block list detail"], none)
    | .ok false => ([], none)

/-- Step 4 of test_permissions.py: tools/call list_blocks; a missing
response is only a notice here, and the function then returns True. -/
def tpList (inp : List Item) : RunOut :=
  match takeLine inp with
  | (.hung, _) => ⟨[.out "4 Testing list_blocks tool", .send permList], .diverged, false⟩
  | (.eofLine, _) =>
      ⟨[.out "4 Testing list_blocks tool", .send permList, .recv,
          .out "No response received"], .done none (some true), true⟩
  | (.got .garbage, _) =>
      ⟨[.out "4 Testing list_blocks tool", .send permList, .recv,
          .out "Error during testing"], .done (some .jsonErr) (some false), true⟩
  | (.got (.jsonOf j4), _) =>
    match classifyListBlocks j4 with
    | (ls, some er) =>
        ⟨[.out "4 Testing list_blocks tool", .send permList, .recv] ++ outsOf ls ++
            [.out "Error during testing"], .done (some er) (some false), true⟩
    | (ls, none) =>
        ⟨[.out "4 Testing list_blocks tool", .send permList, .recv] ++ outsOf ls,
          .done none (some true), true⟩

/-- Step 3 of test_permissions.py: tools/call create_block; a missing
response is only a notice and the script continues with step 4. -/
def tpCreate (inp : List Item) : RunOut :=
  match takeLine inp with
  | (.hung, _) => ⟨[.out "3 Testing create_block tool", .send permCreate], .diverged, false⟩
  | (.eofLine, rest) =>
      withPre [.out "3 Testing create_block tool", .send permCreate, .recv,
        .out "No response received"] (tpList rest)
  | (.got .garbage, _) =>
      ⟨[.out "3 Testing create_block tool", .send permCreate, .recv,
          .out "Error during testing"], .done (some .jsonErr) (some false), true⟩
  | (.got (.jsonOf j3), rest) =>
    match classifyCreateBlock j3 with
    | (ls, some er) =>
        ⟨[.out "3 Testing create_block tool", .send permCreate, .recv] ++ outsOf ls ++
            [.out "Error during testing"], .done (some er) (some false), true⟩
    | (ls, none) =>
        withPre ([.out "3 Testing create_block tool", .send permCreate, .recv] ++ outsOf ls)
          (tpList rest)

/-- Step 2 of test_permissions.py: tools/list; a missing response returns
False. -/
def tpTools (inp : List Item) : RunOut :=
  match takeLine inp with
  | (.hung, _) => ⟨[.out "2 Checking available tools", .send permTools], .diverged, false⟩
  | (.eofLine, _) =>
      ⟨[.out "2 Checking available tools", .send permTools, .recv,
          .out "No response received"], .done none (some false), true⟩
  | (.got .garbage, _) =>
      ⟨[.out "2 Checking available tools", .send permTools, .recv,
          .out "Error during testing"], .done (some .jsonErr) (some false), true⟩
  | (.got (.jsonOf j2), rest) =>
    match pyGet j2 "result" (.obj []) with
    | .error e =>
        ⟨[.out "2 Checking available tools", .send permTools, .recv,
            .out "Error during testing"], .done (some e) (some false), true⟩
    | .ok v1 =>
      match pyGet v1 "tools" (.arr []) with
      | .error e =>
          ⟨[.out "2 Checking available tools", .send permTools, .recv,
              .out "Error during testing"], .done (some e) (some false), true⟩
      | .ok tl =>
        match pyLen tl with
        | .error e =>
            ⟨[.out "2 Checking available tools", .send permTools, .recv,
                .out "Error during testing"], .done (some e) (some false), true⟩
        | .ok _ =>
          match iterElems tl with
          | .error e =>
              ⟨[.out "2 Checking available tools", .send permTools, .recv,
                  .out "Available tools count", .out "Error during testing"],
                .done (some e) (some false), true⟩
          | .ok elems =>
            match toolLoop "tool name and description" elems with
            | .error (er, ls) =>
                ⟨[.out "2 Checking available tools", .send permTools, .recv,
                    .out "Available tools count"] ++ outsOf ls ++
                    [.out "Error during testing"], .done (some er) (some false), true⟩
            | .ok ls =>
                withPre ([.out "2 Checking available tools", .send permTools, .recv,
                  .out "Available tools count"] ++ outsOf ls) (tpCreate rest)

/-- test_mcp_permissions() of test_permissions.py.  The two header prints
of __main__ are elided (they carry no data and precede the run). -/
def test_mcp_permissions (inp : List Item) : RunOut :=
  match takeLine inp with
  | (.hung, _) => ⟨[.out "1 Sending initialize request", .send permInit], .diverged, false⟩
  | (.eofLine, _) =>
      ⟨[.out "1 Sending initialize request", .send permInit, .recv,
          .out "No response received"], .done none (some false), true⟩
  | (.got .garbage, _) =>
      ⟨[.out "1 Sending initialize request", .send permInit, .recv,
          .out "Error during testing"], .done (some .jsonErr) (some false), true⟩
  | (.got (.jsonOf j1), rest) =>
    match pyGet j1 "result" (.obj []) with
    | .error e =>
        ⟨[.out "1 Sending initialize request", .send permInit, .recv,
            .out "Error during testing"], .done (some e) (some false), true⟩
    | .ok v1 =>
      match pyGet v1 "server_info" (.obj []) with
      | .error e =>
          ⟨[.out "1 Sending initialize request", .send permInit, .recv,
              .out "Error during testing"], .done (some e) (some false), true⟩
      | .ok _ =>
          withPre [.out "1 Sending initialize request", .send permInit, .recv,
            .out "Initialize response server info"] (tpTools rest)

/-!
Exit codes.  Only test_permissions.py calls sys.exit: __main__ exits 1
when test_mcp_permissions() returned False and 0 otherwise.  Every other
script catches all exceptions inside the function and its __main__ simply
calls the function, so the interpreter exits 0 whenever the run returns.
A diverged run never exits.
-/

/-- Exit code of running test_permissions.py as a program. -/
def exitPermissions (inp : List Item) : Option Nat :=
  match (test_mcp_permissions inp).outcome with
  | .diverged => none
  | .done _ (some true) => some 0
  | .done _ _ => some 1

/-- Exit code of running a script whose __main__ only calls a function
that catches all its exceptions (all scripts except test_permissions.py). -/
def exitPlain (r : RunOut) : Option Nat :=
  match r.outcome with
  | .diverged => none
  | .done _ _ => some 0

/-!
Spec-side expectation descriptors, transcribed from the claim wording for
comparison with the code-side verdicts (refinement check for C4).
-/

/-- Transcribes the claim wording: the response contains an error whose
message contains the substring permission case-insensitively. -/
def specPermDenied (j : Json) : Bool :=
  match j.get? "error" with
  | some e =>
    match e.get? "message" with
    | some (.str m) => hasSubList "permission".toList (m.toList.map Char.toLower)
    | _ => false
  | none => false

/-- Transcribes the claim wording for the list_blocks step: the response
contains a result. -/
def specListPassClaim (j : Json) : Bool :=
  (j.get? "result").isSome

/-- The code-side characterization the amended claim states: the response
has no error member and has a result member (Python membership). -/
def specListPassAmended (j : Json) : Bool :=
  match pyIn "error" j, pyIn "result" j with
  | .ok false, .ok true => true
  | _, _ => false

/-- Whether a label list contains a given label. -/
def hasOut (ls : List String) (l : String) : Bool :=
  ls.any fun t => t = l

/-- Whether the create_block step of test_permissions.py printed its pass
verdict. -/
def createBlockPasses (j : Json) : Bool :=
  hasOut (classifyCreateBlock j).1
    "Permission system is working - correctly blocking unauthorized access"

/-- Whether the list_blocks step of test_permissions.py printed its pass
verdict. -/
def listBlocksPasses (j : Json) : Bool :=
  hasOut (classifyListBlocks j).1 "List blocks succeeded - read permission is working"

/-- The return value carried by an outcome. -/
def retOf : Outcome → Option Bool
  | .diverged => none
  | .done _ r => r

/-!
Helper lemmas.
-/

lemma evId_mkReq (i : Int) (m : String) (p : Json) :
    evId (.send (mkReq i m p)) = some i := by
  simp [evId, mkReq, Json.get?, kvsFind]

lemma noPip_outsOf (f : Bool) (ls : List String) (es : List Ev) :
    noPip f (outsOf ls ++ es) = noPip f es := by
  induction ls with
  | nil => rfl
  | cons a as ih => simpa [outsOf, noPip] using ih

lemma noPip_outsOf_nil (f : Bool) (ls : List String) :
    noPip f (outsOf ls) = true := by
  have h := noPip_outsOf f ls []
  simpa [noPip] using h

lemma sentIds_outsOf (ls : List String) (es : List Ev) :
    sentIds (outsOf ls ++ es) = sentIds es := by
  induction ls with
  | nil => rfl
  | cons a as ih => simpa [outsOf, sentIds, evId] using ih

lemma sentIds_outsOf_nil (ls : List String) :
    sentIds (outsOf ls) = [] := by
  have h := sentIds_outsOf ls []
  simpa [sentIds] using h

lemma tcTool_noPip (inp : List Item) : noPip false (tcTool inp).events = true := by
  unfold tcTool
  repeat' split
  all_goals simp [noPip]

lemma tcSession_noPip (inp : List Item) : noPip false (tcSession inp).events = true := by
  unfold tcSession
  repeat' split
  all_goals simp [noPip, withPre, tcTool_noPip]

lemma test_complete_noPip (inp : List Item) :
    noPip false (test_complete inp).events = true := by
  unfold test_complete
  repeat' split
  all_goals simp [noPip, withPre, tcSession_noPip]

lemma tfRead_noPip (inp : List Item) : noPip false (tfRead inp).events = true := by
  unfold tfRead
  repeat' split
  all_goals simp [noPip]

lemma tfTools_noPip (inp : List Item) : noPip false (tfTools inp).events = true := by
  unfold tfTools
  repeat' split
  all_goals simp [noPip, withPre, tfRead_noPip]

lemma tfSession_noPip (now : Int) (inp : List Item) :
    noPip false (tfSession now inp).events = true := by
  unfold tfSession
  repeat' split
  all_goals simp [noPip, withPre, tfTools_noPip]

lemma test_mcp_noPip (now : Int) (inp : List Item) :
    noPip false (test_mcp now inp).events = true := by
  unfold test_mcp
  repeat' split
  all_goals simp [noPip, withPre, tfSession_noPip]

lemma tmsTools_noPip (inp : List Item) : noPip false (tmsTools inp).events = true := by
  unfold tmsTools
  repeat' split
  all_goals simp [noPip]

lemma test_mcp_server_noPip (inp : List Item) :
    noPip false (test_mcp_server inp).events = true := by
  unfold test_mcp_server
  repeat' split
  all_goals simp [noPip, withPre, tmsTools_noPip]

lemma dsSession_noPip (inp : List Item) : noPip false (dsSession inp).events = true := by
  unfold dsSession
  repeat' split
  all_goals simp [noPip]

lemma debug_session_noPip (inp : List Item) :
    noPip false (debug_session inp).events = true := by
  unfold debug_session
  repeat' split
  all_goals simp [noPip, withPre, dsSession_noPip]

lemma teTool_noPip (inp : List Item) : noPip false (teTool inp).events = true := by
  unfold teTool
  repeat' split
  all_goals simp [noPip]

lemma teSession_noPip (inp : List Item) : noPip false (teSession inp).events = true := by
  unfold teSession
  repeat' split
  all_goals simp [noPip, withPre, teTool_noPip]

lemma test_tool_execution_noPip (inp : List Item) :
    noPip false (test_tool_execution inp).events = true := by
  unfold test_tool_execution
  repeat' split
  all_goals simp [noPip, withPre, teSession_noPip]

lemma tsTools_noPip (inp : List Item) : noPip false (tsTools inp).events = true := by
  unfold tsTools
  repeat' split
  all_goals simp [noPip, noPip_outsOf, noPip_outsOf_nil]

lemma test_basic_functionality_noPip (inp : List Item) :
    noPip false (test_basic_functionality inp).events = true := by
  unfold test_basic_functionality
  repeat' split
  all_goals simp [noPip, withPre, tsTools_noPip]

lemma tpList_noPip (inp : List Item) : noPip false (tpList inp).events = true := by
  unfold tpList
  repeat' split
  all_goals simp [noPip, noPip_outsOf, noPip_outsOf_nil]

lemma tpCreate_noPip (inp : List Item) : noPip false (tpCreate inp).events = true := by
  unfold tpCreate
  repeat' split
  all_goals simp [noPip, withPre, noPip_outsOf, noPip_outsOf_nil, tpList_noPip]

lemma tpTools_noPip (inp : List Item) : noPip false (tpTools inp).events = true := by
  unfold tpTools
  repeat' split
  all_goals simp [noPip, withPre, noPip_outsOf, noPip_outsOf_nil, tpCreate_noPip]

lemma test_mcp_permissions_noPip (inp : List Item) :
    noPip false (test_mcp_permissions inp).events = true := by
  unfold test_mcp_permissions
  repeat' split
  all_goals simp [noPip, withPre, tpTools_noPip]

lemma tcTool_ids (inp : List Item) :
    consecFrom (sentIds (tcTool inp).events) 3 = true := by
  unfold tcTool
  repeat' split
  all_goals simp [sentIds, evId_mkReq, evId, consecFrom, compTool]

lemma tcSession_ids (inp : List Item) :
    consecFrom (sentIds (tcSession inp).events) 2 = true := by
  unfold tcSession
  repeat' split
  all_goals simp [sentIds, evId_mkReq, evId, consecFrom, compSession, withPre, tcTool_ids]

lemma test_complete_ids (inp : List Item) :
    consecFrom (sentIds (test_complete inp).events) 1 = true := by
  unfold test_complete
  repeat' split
  all_goals simp [sentIds, evId_mkReq, evId, consecFrom, compInit, withPre, tcSession_ids]

lemma tfRead_ids (inp : List Item) :
    consecFrom (sentIds (tfRead inp).events) 4 = true := by
  unfold tfRead
  repeat' split
  all_goals simp [sentIds, evId_mkReq, evId, consecFrom, finRead]

lemma tfTools_ids (inp : List Item) :
    consecFrom (sentIds (tfTools inp).events) 3 = true := by
  unfold tfTools
  repeat' split
  all_goals simp [sentIds, evId_mkReq, evId, consecFrom, finTools, withPre, tfRead_ids]

lemma tfSession_ids (now : Int) (inp : List Item) :
    consecFrom (sentIds (tfSession now inp).events) 2 = true := by
  unfold tfSession
  repeat' split
  all_goals simp [sentIds, evId_mkReq, evId, consecFrom, finSession, withPre, tfTools_ids]

lemma test_mcp_ids (now : Int) (inp : List Item) :
    consecFrom (sentIds (test_mcp now inp).events) 1 = true := by
  unfold test_mcp
  repeat' split
  all_goals simp [sentIds, evId_mkReq, evId, consecFrom, finInit, withPre, tfSession_ids]

lemma tmsTools_ids (inp : List Item) :
    consecFrom (sentIds (tmsTools inp).events) 2 = true := by
  unfold tmsTools
  repeat' split
  all_goals simp [sentIds, evId_mkReq, evId, consecFrom, mcpTools]

lemma test_mcp_server_ids (inp : List Item) :
    consecFrom (sentIds (test_mcp_server inp).events) 1 = true := by
  unfold test_mcp_server
  repeat' split
  all_goals simp [sentIds, evId_mkReq, evId, consecFrom, mcpInit, withPre, tmsTools_ids]

lemma dsSession_ids (inp : List Item) :
    consecFrom (sentIds (dsSession inp).events) 2 = true := by
  unfold dsSession
  repeat' split
  all_goals simp [sentIds, evId_mkReq, evId, consecFrom, dbgSession]

lemma debug_session_ids (inp : List Item) :
    consecFrom (sentIds (debug_session inp).events) 1 = true := by
  unfold debug_session
  repeat' split
  all_goals simp [sentIds, evId_mkReq, evId, consecFrom, dbgInit, withPre, dsSession_ids]

lemma teTool_ids (inp : List Item) :
    consecFrom (sentIds (teTool inp).events) 3 = true := by
  unfold teTool
  repeat' split
  all_goals simp [sentIds, evId_mkReq, evId, consecFrom, teToolReq]

lemma teSession_ids (inp : List Item) :
    consecFrom (sentIds (teSession inp).events) 2 = true := by
  unfold teSession
  repeat' split
  all_goals simp [sentIds, evId_mkReq, evId, consecFrom, teSessionReq, withPre, teTool_ids]

lemma test_tool_execution_ids (inp : List Item) :
    consecFrom (sentIds (test_tool_execution inp).events) 1 = true := by
  unfold test_tool_execution
  repeat' split
  all_goals simp [sentIds, evId_mkReq, evId, consecFrom, teInit, withPre, teSession_ids]

lemma tsTools_ids (inp : List Item) :
    consecFrom (sentIds (tsTools inp).events) 2 = true := by
  unfold tsTools
  repeat' split
  all_goals simp [sentIds, evId_mkReq, evId, consecFrom, simpTools,
    sentIds_outsOf, sentIds_outsOf_nil]

lemma test_basic_functionality_ids (inp : List Item) :
    consecFrom (sentIds (test_basic_functionality inp).events) 1 = true := by
  unfold test_basic_functionality
  repeat' split
  all_goals simp [sentIds, evId_mkReq, evId, consecFrom, simpInit, withPre, tsTools_ids]

lemma tpList_ids (inp : List Item) :
    consecFrom (sentIds (tpList inp).events) 4 = true := by
  unfold tpList
  repeat' split
  all_goals simp [sentIds, evId_mkReq, evId, consecFrom, permList,
    sentIds_outsOf, sentIds_outsOf_nil]

lemma tpCreate_ids (inp : List Item) :
    consecFrom (sentIds (tpCreate inp).events) 3 = true := by
  unfold tpCreate
  repeat' split
  all_goals simp [sentIds, evId_mkReq, evId, consecFrom, permCreate, withPre,
    sentIds_outsOf, sentIds_outsOf_nil, tpList_ids]

lemma tpTools_ids (inp : List Item) :
    consecFrom (sentIds (tpTools inp).events) 2 = true := by
  unfold tpTools
  repeat' split
  all_goals simp [sentIds, evId_mkReq, evId, consecFrom, permTools, withPre,
    sentIds_outsOf, sentIds_outsOf_nil, tpCreate_ids]

lemma test_mcp_permissions_ids (inp : List Item) :
    consecFrom (sentIds (test_mcp_permissions inp).events) 1 = true := by
  unfold test_mcp_permissions
  repeat' split
  all_goals simp [sentIds, evId_mkReq, evId, consecFrom, permInit, withPre, tpTools_ids]

lemma tcTool_shut (inp : List Item) :
    (tcTool inp).outcome = .diverged ∨ (tcTool inp).shutdown = true := by
  unfold tcTool
  repeat' split
  all_goals simp

lemma tcSession_shut (inp : List Item) :
    (tcSession inp).outcome = .diverged ∨ (tcSession inp).shutdown = true := by
  unfold tcSession
  repeat' split
  all_goals simp [withPre]
  all_goals exact tcTool_shut _

lemma test_complete_shut (inp : List Item) :
    (test_complete inp).outcome = .diverged ∨ (test_complete inp).shutdown = true := by
  unfold test_complete
  repeat' split
  all_goals simp [withPre]
  all_goals exact tcSession_shut _

lemma tfRead_shut (inp : List Item) :
    (tfRead inp).outcome = .diverged ∨ (tfRead inp).shutdown = true := by
  unfold tfRead
  repeat' split
  all_goals simp

lemma tfTools_shut (inp : List Item) :
    (tfTools inp).outcome = .diverged ∨ (tfTools inp).shutdown = true := by
  unfold tfTools
  repeat' split
  all_goals simp [withPre]
  all_goals exact tfRead_shut _

lemma tfSession_shut (now : Int) (inp : List Item) :
    (tfSession now inp).outcome = .diverged ∨ (tfSession now inp).shutdown = true := by
  unfold tfSession
  repeat' split
  all_goals simp [withPre]
  all_goals exact tfTools_shut _

lemma test_mcp_shut (now : Int) (inp : List Item) :
    (test_mcp now inp).outcome = .diverged ∨ (test_mcp now inp).shutdown = true := by
  unfold test_mcp
  repeat' split
  all_goals simp [withPre]
  all_goals exact tfSession_shut _ _

lemma tmsTools_shut (inp : List Item) :
    (tmsTools inp).outcome = .diverged ∨ (tmsTools inp).shutdown = true := by
  unfold tmsTools
  repeat' split
  all_goals simp

lemma test_mcp_server_shut (inp : List Item) :
    (test_mcp_server inp).outcome = .diverged ∨ (test_mcp_server inp).shutdown = true := by
  unfold test_mcp_server
  repeat' split
  all_goals simp [withPre]
  all_goals exact tmsTools_shut _

lemma dsSession_shut (inp : List Item) :
    (dsSession inp).outcome = .diverged ∨ (dsSession inp).shutdown = true := by
  unfold dsSession
  repeat' split
  all_goals simp

lemma debug_session_shut (inp : List Item) :
    (debug_session inp).outcome = .diverged ∨ (debug_session inp).shutdown = true := by
  unfold debug_session
  repeat' split
  all_goals simp [withPre]
  all_goals exact dsSession_shut _

lemma teTool_shut (inp : List Item) :
    (teTool inp).outcome = .diverged ∨ (teTool inp).shutdown = true := by
  unfold teTool
  repeat' split
  all_goals simp

lemma teSession_shut (inp : List Item) :
    (teSession inp).outcome = .diverged ∨ (teSession inp).shutdown = true := by
  unfold teSession
  repeat' split
  all_goals simp [withPre]
  all_goals exact teTool_shut _

lemma test_tool_execution_shut (inp : List Item) :
    (test_tool_execution inp).outcome = .diverged ∨
      (test_tool_execution inp).shutdown = true := by
  unfold test_tool_execution
  repeat' split
  all_goals simp [withPre]
  all_goals exact teSession_shut _

lemma tsTools_shut (inp : List Item) :
    (tsTools inp).outcome = .diverged ∨ (tsTools inp).shutdown = true := by
  unfold tsTools
  repeat' split
  all_goals simp

lemma test_basic_functionality_shut (inp : List Item) :
    (test_basic_functionality inp).outcome = .diverged ∨
      (test_basic_functionality inp).shutdown = true := by
  unfold test_basic_functionality
  repeat' split
  all_goals simp [withPre]
  all_goals exact tsTools_shut _

lemma tpList_shut (inp : List Item) :
    (tpList inp).outcome = .diverged ∨ (tpList inp).shutdown = true := by
  unfold tpList
  repeat' split
  all_goals simp

lemma tpCreate_shut (inp : List Item) :
    (tpCreate inp).outcome = .diverged ∨ (tpCreate inp).shutdown = true := by
  unfold tpCreate
  repeat' split
  all_goals simp [withPre]
  all_goals exact tpList_shut _

lemma tpTools_shut (inp : List Item) :
    (tpTools inp).outcome = .diverged ∨ (tpTools inp).shutdown = true := by
  unfold tpTools
  repeat' split
  all_goals simp [withPre]
  all_goals exact tpCreate_shut _

lemma test_mcp_permissions_shut (inp : List Item) :
    (test_mcp_permissions inp).outcome = .diverged ∨
      (test_mcp_permissions inp).shutdown = true := by
  unfold test_mcp_permissions
  repeat' split
  all_goals simp [withPre]
  all_goals exact tpTools_shut _

/-- Whether a request carries the full initialize parameter set required by
the wire-protocol table: protocolVersion, capabilities, and clientInfo with
name and version. -/
def hasFullInitParams (j : Json) : Bool :=
  match j.get? "params" with
  | some p =>
    (p.get? "protocolVersion").isSome && (p.get? "capabilities").isSome &&
    (match p.get? "clientInfo" with
     | some ci => (ci.get? "name").isSome && (ci.get? "version").isSome
     | none => false)
  | none => false

lemma test_complete_hd (inp : List Item) :
    (sentJs (test_complete inp).events).head? = some compInit := by
  unfold test_complete
  repeat' split
  all_goals simp [sentJs, withPre]

lemma test_mcp_hd (now : Int) (inp : List Item) :
    (sentJs (test_mcp now inp).events).head? = some finInit := by
  unfold test_mcp
  repeat' split
  all_goals simp [sentJs, withPre]

lemma test_mcp_server_hd (inp : List Item) :
    (sentJs (test_mcp_server inp).events).head? = some mcpInit := by
  unfold test_mcp_server
  repeat' split
  all_goals simp [sentJs, withPre]

lemma debug_session_hd (inp : List Item) :
    (sentJs (debug_session inp).events).head? = some dbgInit := by
  unfold debug_session
  repeat' split
  all_goals simp [sentJs, withPre]

lemma test_tool_execution_hd (inp : List Item) :
    (sentJs (test_tool_execution inp).events).head? = some teInit := by
  unfold test_tool_execution
  repeat' split
  all_goals simp [sentJs, withPre]

lemma test_basic_functionality_hd (inp : List Item) :
    (sentJs (test_basic_functionality inp).events).head? = some simpInit := by
  unfold test_basic_functionality
  repeat' split
  all_goals simp [sentJs, withPre]

lemma test_mcp_permissions_hd (inp : List Item) :
    (sentJs (test_mcp_permissions inp).events).head? = some permInit := by
  unfold test_mcp_permissions
  repeat' split
  all_goals simp [sentJs, withPre]

lemma createBlock_pass_iff (j : Json) : createBlockPasses j = specPermDenied j := by
  cases j with
  | null => rfl
  | bool b => rfl
  | num n => rfl
  | str s =>
    cases hb : strHasSub s "error" with
    | false =>
      cases hr : strHasSub s "result" with
      | false =>
        simp [createBlockPasses, classifyCreateBlock, pyIn, specPermDenied, Json.get?,
          hasOut, hb, hr]
      | true =>
        simp [createBlockPasses, classifyCreateBlock, pyIn, specPermDenied, Json.get?,
          hasOut, hb, hr]
    | true =>
      simp [createBlockPasses, classifyCreateBlock, pyIn, pyIndex, specPermDenied,
        Json.get?, hasOut, hb]
  | arr xs =>
    cases hb : xs.any fun x => match x with | .str t => t = "error" | _ => false with
    | false =>
      cases hr : xs.any fun x => match x with | .str t => t = "result" | _ => false with
      | false =>
        simp [createBlockPasses, classifyCreateBlock, pyIn, specPermDenied, Json.get?,
          hasOut, hb, hr]
      | true =>
        simp [createBlockPasses, classifyCreateBlock, pyIn, specPermDenied, Json.get?,
          hasOut, hb, hr]
    | true =>
      simp [createBlockPasses, classifyCreateBlock, pyIn, pyIndex, specPermDenied,
        Json.get?, hasOut, hb]
  | obj kvs =>
    cases hf : kvsFind kvs "error" with
    | none =>
      cases hr : kvsFind kvs "result" with
      | none =>
        simp [createBlockPasses, classifyCreateBlock, pyIn, specPermDenied, Json.get?,
          hasOut, hf, hr]
      | some rv =>
        simp [createBlockPasses, classifyCreateBlock, pyIn, specPermDenied, Json.get?,
          hasOut, hf, hr]
    | some ej =>
      cases ej with
      | null =>
        simp [createBlockPasses, classifyCreateBlock, pyIn, pyIndex, specPermDenied,
          Json.get?, hasOut, hf]
      | bool b2 =>
        simp [createBlockPasses, classifyCreateBlock, pyIn, pyIndex, specPermDenied,
          Json.get?, hasOut, hf]
      | num n2 =>
        simp [createBlockPasses, classifyCreateBlock, pyIn, pyIndex, specPermDenied,
          Json.get?, hasOut, hf]
      | str s2 =>
        simp [createBlockPasses, classifyCreateBlock, pyIn, pyIndex, specPermDenied,
          Json.get?, hasOut, hf]
      | arr xs2 =>
        simp [createBlockPasses, classifyCreateBlock, pyIn, pyIndex, specPermDenied,
          Json.get?, hasOut, hf]
      | obj kvs2 =>
        cases hm : kvsFind kvs2 "message" with
        | none =>
          simp [createBlockPasses, classifyCreateBlock, pyIn, pyIndex, specPermDenied,
            Json.get?, hasOut, hf, hm]
        | some m =>
          cases m with
          | str t =>
            cases hs : hasSubList "permission".toList (t.toList.map Char.toLower) with
            | false =>
              simp only [String.toList] at hs
              simp [createBlockPasses, classifyCreateBlock, pyIn, pyIndex, pyLower,
                specPermDenied, Json.get?, hasOut, hf, hm, String.toList, hs]
            | true =>
              simp only [String.toList] at hs
              simp [createBlockPasses, classifyCreateBlock, pyIn, pyIndex, pyLower,
                specPermDenied, Json.get?, hasOut, hf, hm, String.toList, hs]
          | null =>
            simp [createBlockPasses, classifyCreateBlock, pyIn, pyIndex, pyLower,
              specPermDenied, Json.get?, hasOut, hf, hm]
          | bool b3 =>
            simp [createBlockPasses, classifyCreateBlock, pyIn, pyIndex, pyLower,
              specPermDenied, Json.get?, hasOut, hf, hm]
          | num n3 =>
            simp [createBlockPasses, classifyCreateBlock, pyIn, pyIndex, pyLower,
              specPermDenied, Json.get?, hasOut, hf, hm]
          | arr xs3 =>
            simp [createBlockPasses, classifyCreateBlock, pyIn, pyIndex, pyLower,
              specPermDenied, Json.get?, hasOut, hf, hm]
          | obj kvs3 =>
            simp [createBlockPasses, classifyCreateBlock, pyIn, pyIndex, pyLower,
              specPermDenied, Json.get?, hasOut, hf, hm]

lemma listBlocks_pass_iff (j : Json) : listBlocksPasses j = specListPassAmended j := by
  cases j with
  | null => rfl
  | bool b => rfl
  | num n => rfl
  | str s =>
    cases hb : strHasSub s "error" with
    | false =>
      cases hr : strHasSub s "result" with
      | false =>
        simp [listBlocksPasses, classifyListBlocks, pyIn, specListPassAmended, hasOut, hb, hr]
      | true =>
        simp [listBlocksPasses, classifyListBlocks, pyIn, specListPassAmended, hasOut, hb, hr]
    | true =>
      simp [listBlocksPasses, classifyListBlocks, pyIn, pyIndex, specListPassAmended,
        hasOut, hb]
  | arr xs =>
    cases hb : xs.any fun x => match x with | .str t => t = "error" | _ => false with
    | false =>
      cases hr : xs.any fun x => match x with | .str t => t = "result" | _ => false with
      | false =>
        simp [listBlocksPasses, classifyListBlocks, pyIn, specListPassAmended, hasOut, hb, hr]
      | true =>
        simp [listBlocksPasses, classifyListBlocks, pyIn, specListPassAmended, hasOut, hb, hr]
    | true =>
      simp [listBlocksPasses, classifyListBlocks, pyIn, pyIndex, specListPassAmended,
        hasOut, hb]
  | obj kvs =>
    cases hf : kvsFind kvs "error" with
    | none =>
      cases hr : kvsFind kvs "result" with
      | none =>
        simp [listBlocksPasses, classifyListBlocks, pyIn, specListPassAmended, hasOut, hf, hr]
      | some rv =>
        simp [listBlocksPasses, classifyListBlocks, pyIn, specListPassAmended, hasOut, hf, hr]
    | some ej =>
      cases ej with
      | obj kvs2 =>
        cases hm : kvsFind kvs2 "message" with
        | none =>
          simp [listBlocksPasses, classifyListBlocks, pyIn, pyIndex, specListPassAmended,
            hasOut, hf, hm]
        | some m =>
          simp [listBlocksPasses, classifyListBlocks, pyIn, pyIndex, specListPassAmended,
            hasOut, hf, hm]
      | null =>
        simp [listBlocksPasses, classifyListBlocks, pyIn, pyIndex, specListPassAmended,
          hasOut, hf]
      | bool b2 =>
        simp [listBlocksPasses, classifyListBlocks, pyIn, pyIndex, specListPassAmended,
          hasOut, hf]
      | num n2 =>
        simp [listBlocksPasses, classifyListBlocks, pyIn, pyIndex, specListPassAmended,
          hasOut, hf]
      | str s2 =>
        simp [listBlocksPasses, classifyListBlocks, pyIn, pyIndex, specListPassAmended,
          hasOut, hf]
      | arr xs2 =>
        simp [listBlocksPasses, classifyListBlocks, pyIn, pyIndex, specListPassAmended,
          hasOut, hf]

/-!
Claim theorems.
-/

/-- A well-formed success response line with an arbitrary id value. -/
def mkRespResult (idv rv : Json) : Json :=
  .obj [("jsonrpc", .str "2.0"), ("id", idv), ("result", rv)]

/-- The initialize response shape that satisfies step 1 of test_simple.py. -/
def simpleInitOk (n v p : String) : Json :=
  .obj [("result", .obj [("serverInfo", .obj [("name", .str n), ("version", .str v)]),
        ("protocolVersion", .str p)])]

/-- Claim C1, counterexample.  Running test_complete.py against a
collaborator whose responses carry ids 99, 98 and 97 (while the requests
carry ids 1, 2 and 3): the harness consumes every mismatched-id response,
sends all three requests, raises nothing, and finishes cleanly — no
IdMismatchError exists and the run proceeds to the next step on a
mismatched id, so the claim as stated is false. -/
theorem c1_mismatched_id_consumed_cex :
    sentJs (test_complete
      [.line (.jsonOf (mkRespResult (.num 99) (.obj []))),
       .line (.jsonOf (mkRespResult (.num 98) (.obj [("session_id", .str "s1")]))),
       .line (.jsonOf (mkRespResult (.num 97) (.obj [("files", .arr [])])))]).events
      = [compInit, compSession, compTool]
    ∧ compInit.get? "id" = some (.num 1)
    ∧ (mkRespResult (.num 99) (.obj [])).get? "id" = some (.num 99)
    ∧ (test_complete
      [.line (.jsonOf (mkRespResult (.num 99) (.obj []))),
       .line (.jsonOf (mkRespResult (.num 98) (.obj [("session_id", .str "s1")]))),
       .line (.jsonOf (mkRespResult (.num 97) (.obj [("files", .arr [])])))]).outcome
      = .done none none :=
  ⟨rfl, rfl, rfl, rfl⟩

/-- Claim C1, amended.  The harness never inspects the id field of any
response: for all id values i1, i2, i3 (matching or not), test_complete
consumes each response, proceeds through all three steps, and produces the
identical full-success trace.  No IdMismatchError or desynchronization
handling exists. -/
theorem c1_ids_ignored_run_proceeds (i1 i2 i3 : Json) (sid : String) :
    test_complete
      [.line (.jsonOf (mkRespResult i1 (.obj []))),
       .line (.jsonOf (mkRespResult i2 (.obj [("session_id", .str sid)]))),
       .line (.jsonOf (mkRespResult i3 (.obj [("files", .arr [])])))] =
    ⟨[.send compInit, .recv, .out "Initialize OK",
      .send compSession, .recv, .out "Session created",
      .send compTool, .recv, .out "Tool execution successful",
      .out "Found files directories"], .done none none, true⟩ := by
  simp [test_complete, tcSession, tcTool, takeLine, mkRespResult, pyIn, pyIndex,
    kvsFind, Json.get?, withPre, initStatusLbl, pyLen]

/-- Claim C2, confirmed.  In every run of every harness script, request
writes and response reads strictly alternate: no request line is ever
written while a previous request is still outstanding, so the harness
never has two requests in flight at once.  (The ReentrancyError clause of
the claim concerns a situation that consequently never arises.) -/
theorem c2_single_request_in_flight (inp : List Item) (now : Int) :
    noPip false (test_complete inp).events = true ∧
    noPip false (test_mcp now inp).events = true ∧
    noPip false (test_mcp_server inp).events = true ∧
    noPip false (test_mcp_permissions inp).events = true ∧
    noPip false (test_basic_functionality inp).events = true ∧
    noPip false (test_tool_execution inp).events = true ∧
    noPip false (debug_session inp).events = true :=
  ⟨test_complete_noPip inp, test_mcp_noPip now inp, test_mcp_server_noPip inp,
   test_mcp_permissions_noPip inp, test_basic_functionality_noPip inp,
   test_tool_execution_noPip inp, debug_session_noPip inp⟩

/-- Claim C3, counterexample.  A run of test_permissions.py in which the
permission assertion fails (create_block returns a result, printing the
too-permissive failure verdict) still exits with code 0, contradicting
exit code 1 for one or more assertion failures. -/
theorem c3_assertion_failure_exit_zero_cex :
    exitPermissions
      [.line (.jsonOf (.obj [("id", .num 1), ("result", .obj [("server_info", .obj [])])])),
       .line (.jsonOf (.obj [("result", .obj [("tools", .arr [])])])),
       .line (.jsonOf (.obj [("id", .num 3), ("result", .obj [("block_id", .str "b1")])])),
       .line (.jsonOf (.obj [("result", .obj [])]))] = some 0 ∧
    hasLbl (test_mcp_permissions
      [.line (.jsonOf (.obj [("id", .num 1), ("result", .obj [("server_info", .obj [])])])),
       .line (.jsonOf (.obj [("result", .obj [("tools", .arr [])])])),
       .line (.jsonOf (.obj [("id", .num 3), ("result", .obj [("block_id", .str "b1")])])),
       .line (.jsonOf (.obj [("result", .obj [])]))]).events
      "Block creation succeeded - permissions may be too permissive" = true :=
  ⟨rfl, rfl⟩

/-- Claim C3, amended.  The harness scripts produce only exit codes 0 and 1
(exit code 2 never occurs): test_permissions.py exits 0 exactly when its
run returned True — which does not require the permission assertions to
have passed — and 1 otherwise; every other script exits 0 whenever its run
returns at all, regardless of assertion outcomes. -/
theorem c3_exit_codes_only_zero_and_one (inp : List Item) (now : Int) :
    (exitPermissions inp = some 0 ∨ exitPermissions inp = some 1 ∨
      exitPermissions inp = none) ∧
    (exitPermissions inp = some 0 ↔ retOf (test_mcp_permissions inp).outcome = some true) ∧
    (exitPlain (test_complete inp) = some 0 ∨ exitPlain (test_complete inp) = none) ∧
    (exitPlain (test_mcp now inp) = some 0 ∨ exitPlain (test_mcp now inp) = none) ∧
    (exitPlain (test_mcp_server inp) = some 0 ∨ exitPlain (test_mcp_server inp) = none) ∧
    (exitPlain (test_basic_functionality inp) = some 0 ∨
      exitPlain (test_basic_functionality inp) = none) ∧
    (exitPlain (test_tool_execution inp) = some 0 ∨
      exitPlain (test_tool_execution inp) = none) ∧
    (exitPlain (debug_session inp) = some 0 ∨ exitPlain (debug_session inp) = none) := by
  refine ⟨?_, ?_, ?_, ?_, ?_, ?_, ?_, ?_⟩
  · rcases h : (test_mcp_permissions inp).outcome with _ | ⟨e, r⟩
    · simp [exitPermissions, h]
    · rcases r with _ | b
      · simp [exitPermissions, h]
      · cases b <;> simp [exitPermissions, h]
  · rcases h : (test_mcp_permissions inp).outcome with _ | ⟨e, r⟩
    · simp [exitPermissions, retOf, h]
    · rcases r with _ | b
      · simp [exitPermissions, retOf, h]
      · cases b <;> simp [exitPermissions, retOf, h]
  · rcases h : (test_complete inp).outcome with _ | ⟨e, r⟩ <;> simp [exitPlain, h]
  · rcases h : (test_mcp now inp).outcome with _ | ⟨e, r⟩ <;> simp [exitPlain, h]
  · rcases h : (test_mcp_server inp).outcome with _ | ⟨e, r⟩ <;> simp [exitPlain, h]
  · rcases h : (test_basic_functionality inp).outcome with _ | ⟨e, r⟩ <;>
      simp [exitPlain, h]
  · rcases h : (test_tool_execution inp).outcome with _ | ⟨e, r⟩ <;> simp [exitPlain, h]
  · rcases h : (debug_session inp).outcome with _ | ⟨e, r⟩ <;> simp [exitPlain, h]

/-- Claim C4, counterexample.  A response carrying both an error member and
a result member contains a result, yet the list_blocks verdict of
test_permissions.py is not pass (the error branch is checked first), so
the pass-iff-contains-a-result biconditional of the claim is false. -/
theorem c4_list_blocks_error_and_result_cex :
    specListPassClaim
      (Json.obj [("error", .obj [("message", .str "boom")]), ("result", .obj [])]) = true ∧
    listBlocksPasses
      (Json.obj [("error", .obj [("message", .str "boom")]), ("result", .obj [])]) = false :=
  ⟨rfl, rfl⟩

/-- Claim C4, amended.  For every response value: the create_block verdict
of test_permissions.py is pass exactly when the response contains an error
whose message contains the substring permission case-insensitively (this
half of the claim holds as stated); the list_blocks verdict is pass
exactly when the response has no error member and has a result member. -/
theorem c4_permission_verdicts (j : Json) :
    createBlockPasses j = specPermDenied j ∧
    listBlocksPasses j = specListPassAmended j :=
  ⟨createBlock_pass_iff j, listBlocks_pass_iff j⟩

/-- Claim C5, counterexample.  Against a collaborator that never produces
a line, test_mcp.py and test_simple.py block forever in readline: the run
diverges, no TimeoutError is raised, no failed verdict is produced, and
shutdown is never reached — contradicting the claimed deadline. -/
theorem c5_silent_collaborator_cex :
    (test_mcp_server [Item.hang]).outcome = .diverged ∧
    (test_mcp_server [Item.hang]).shutdown = false ∧
    (test_basic_functionality [Item.hang]).outcome = .diverged ∧
    (test_basic_functionality [Item.hang]).shutdown = false :=
  ⟨rfl, rfl, rfl, rfl⟩

/-- Claim C5, amended.  No read is bounded by a deadline: whenever the
collaborator hangs before its next line, every script blocks forever on
its first readline, emits nothing further, and never reaches the
terminate-and-wait shutdown. -/
theorem c5_reads_unbounded_hang (rest : List Item) (now : Int) :
    test_complete (.hang :: rest) = ⟨[.send compInit], .diverged, false⟩ ∧
    test_mcp now (.hang :: rest) = ⟨[.send finInit], .diverged, false⟩ ∧
    test_mcp_server (.hang :: rest) =
      ⟨[.out "Sending initialize request", .send mcpInit], .diverged, false⟩ ∧
    test_mcp_permissions (.hang :: rest) =
      ⟨[.out "1 Sending initialize request", .send permInit], .diverged, false⟩ ∧
    test_basic_functionality (.hang :: rest) =
      ⟨[.out "Testing Forge MCP Server", .out "1 Testing initialization",
        .send simpInit], .diverged, false⟩ ∧
    test_tool_execution (.hang :: rest) = ⟨[.send teInit], .diverged, false⟩ ∧
    debug_session (.hang :: rest) = ⟨[.send dbgInit], .diverged, false⟩ :=
  ⟨rfl, rfl, rfl, rfl, rfl, rfl, rfl⟩

/-- Claim C6, counterexample.  When session/create fails in
test_complete.py (an error response), the complete trace of the run is
exactly the six events shown: the dependent tools/call request is never
sent, and no output event of any kind — in particular no skipped marking —
refers to the dependent step, contradicting the claim that it is marked
skipped. -/
theorem c6_no_skip_marking_cex :
    test_complete
      [.line (.jsonOf (mkRespResult (.num 1) (.obj []))),
       .line (.jsonOf (.obj [("jsonrpc", .str "2.0"), ("id", .num 2),
         ("error", .obj [("message", .str "session failed")])]))] =
    ⟨[.send compInit, .recv, .out "Initialize OK", .send compSession, .recv,
      .out "Session creation failed"], .done none none, true⟩ ∧
    sentJs (test_complete
      [.line (.jsonOf (mkRespResult (.num 1) (.obj []))),
       .line (.jsonOf (.obj [("jsonrpc", .str "2.0"), ("id", .num 2),
         ("error", .obj [("message", .str "session failed")])]))]).events
      = [compInit, compSession] :=
  ⟨rfl, rfl⟩

/-- Claim C6, amended.  In test_complete.py, whenever the session/create
response lacks a result member, the dependent tools/call step is never
executed — its request is not sent — and it receives no verdict at all:
the trace ends with the session-failure report and contains no marking
(passed, failed, or skipped) for the dependent step. -/
theorem c6_dependent_step_not_executed (j1 j2 : Json) (b : Bool) (rest : List Item)
    (h1 : pyIn "result" j1 = .ok b) (h2 : pyIn "result" j2 = .ok false) :
    test_complete (.line (.jsonOf j1) :: .line (.jsonOf j2) :: rest) =
      ⟨[.send compInit, .recv, .out (initStatusLbl b), .send compSession, .recv,
        .out "Session creation failed"], .done none none, true⟩ ∧
    sentJs (test_complete (.line (.jsonOf j1) :: .line (.jsonOf j2) :: rest)).events
      = [compInit, compSession] := by
  have h : test_complete (.line (.jsonOf j1) :: .line (.jsonOf j2) :: rest) =
      ⟨[.send compInit, .recv, .out (initStatusLbl b), .send compSession, .recv,
        .out "Session creation failed"], .done none none, true⟩ := by
    simp [test_complete, tcSession, takeLine, h1, h2, withPre]
  refine ⟨h, ?_⟩
  rw [h]
  rfl

/-- Claim C6, witness for the amended theorem at a concrete run. -/
theorem c6_dependent_step_not_executed_witness :
    pyIn "result" (mkRespResult (.num 1) (.obj [])) = .ok true ∧
    pyIn "result" (Json.obj [("error", .obj [])]) = .ok false ∧
    sentJs (test_complete [.line (.jsonOf (mkRespResult (.num 1) (.obj []))),
      .line (.jsonOf (.obj [("error", .obj [])]))]).events = [compInit, compSession] :=
  ⟨rfl, rfl, (c6_dependent_step_not_executed (mkRespResult (.num 1) (.obj []))
      (.obj [("error", .obj [])]) true [] rfl rfl).2⟩

/-- Claim C7, confirmed.  In every run of every harness script, the ids of
the request lines actually sent form the consecutive sequence 1, 2, 3, ...
— starting at 1, increasing by exactly 1 per request, never reused, each
id strictly greater than all previously sent ids. -/
theorem c7_request_ids_consecutive (inp : List Item) (now : Int) :
    consecFrom (sentIds (test_complete inp).events) 1 = true ∧
    consecFrom (sentIds (test_mcp now inp).events) 1 = true ∧
    consecFrom (sentIds (test_mcp_server inp).events) 1 = true ∧
    consecFrom (sentIds (test_mcp_permissions inp).events) 1 = true ∧
    consecFrom (sentIds (test_basic_functionality inp).events) 1 = true ∧
    consecFrom (sentIds (test_tool_execution inp).events) 1 = true ∧
    consecFrom (sentIds (debug_session inp).events) 1 = true :=
  ⟨test_complete_ids inp, test_mcp_ids now inp, test_mcp_server_ids inp,
   test_mcp_permissions_ids inp, test_basic_functionality_ids inp,
   test_tool_execution_ids inp, debug_session_ids inp⟩

/-- Claim C8, counterexample.  The initialize request of debug_session.py
is sent first on every run yet carries empty params — no protocolVersion,
no capabilities, no clientInfo — and the same holds for
test_tool_execution.py, contradicting the claim that every initialize
request includes the required parameters. -/
theorem c8_empty_init_params_cex :
    (sentJs (debug_session []).events).head? = some dbgInit ∧
    dbgInit.get? "method" = some (.str "initialize") ∧
    hasFullInitParams dbgInit = false ∧
    hasFullInitParams teInit = false :=
  ⟨rfl, rfl, rfl, rfl⟩

/-- Claim C8, amended.  Every run of every script sends that script's fixed
initialize request first.  The initialize requests of test_complete.py,
test_final.py, test_mcp.py, test_permissions.py and test_simple.py carry
the full required parameter set (protocolVersion, capabilities, clientInfo
with name and version); those of test_tool_execution.py and
debug_session.py carry empty params. -/
theorem c8_init_request_params (inp : List Item) (now : Int) :
    (sentJs (test_complete inp).events).head? = some compInit ∧
    (sentJs (test_mcp now inp).events).head? = some finInit ∧
    (sentJs (test_mcp_server inp).events).head? = some mcpInit ∧
    (sentJs (test_mcp_permissions inp).events).head? = some permInit ∧
    (sentJs (test_basic_functionality inp).events).head? = some simpInit ∧
    (sentJs (test_tool_execution inp).events).head? = some teInit ∧
    (sentJs (debug_session inp).events).head? = some dbgInit ∧
    hasFullInitParams compInit = true ∧
    hasFullInitParams finInit = true ∧
    hasFullInitParams mcpInit = true ∧
    hasFullInitParams permInit = true ∧
    hasFullInitParams simpInit = true ∧
    teInit.get? "params" = some (.obj []) ∧
    dbgInit.get? "params" = some (.obj []) :=
  ⟨test_complete_hd inp, test_mcp_hd now inp, test_mcp_server_hd inp,
   test_mcp_permissions_hd inp, test_basic_functionality_hd inp,
   test_tool_execution_hd inp, debug_session_hd inp,
   rfl, rfl, rfl, rfl, rfl, rfl, rfl⟩

/-- Claim C9, confirmed.  For every run of every harness script that
returns at all — whether the conversation body completed normally or an
exception was caught — the finally block (terminate followed by wait) has
executed before the run returns. -/
theorem c9_shutdown_on_return (inp : List Item) (now : Int) :
    ((test_complete inp).outcome ≠ .diverged → (test_complete inp).shutdown = true) ∧
    ((test_mcp now inp).outcome ≠ .diverged → (test_mcp now inp).shutdown = true) ∧
    ((test_mcp_server inp).outcome ≠ .diverged → (test_mcp_server inp).shutdown = true) ∧
    ((test_mcp_permissions inp).outcome ≠ .diverged →
      (test_mcp_permissions inp).shutdown = true) ∧
    ((test_basic_functionality inp).outcome ≠ .diverged →
      (test_basic_functionality inp).shutdown = true) ∧
    ((test_tool_execution inp).outcome ≠ .diverged →
      (test_tool_execution inp).shutdown = true) ∧
    ((debug_session inp).outcome ≠ .diverged → (debug_session inp).shutdown = true) :=
  ⟨fun h => (test_complete_shut inp).resolve_left h,
   fun h => (test_mcp_shut now inp).resolve_left h,
   fun h => (test_mcp_server_shut inp).resolve_left h,
   fun h => (test_mcp_permissions_shut inp).resolve_left h,
   fun h => (test_basic_functionality_shut inp).resolve_left h,
   fun h => (test_tool_execution_shut inp).resolve_left h,
   fun h => (debug_session_shut inp).resolve_left h⟩

/-- Claim C9, witness at the empty input (the collaborator closes its
output immediately; every script returns through its handler and has shut
the child process down). -/
theorem c9_shutdown_on_return_witness :
    (test_complete []).shutdown = true ∧
    (test_mcp 0 []).shutdown = true ∧
    (test_mcp_server []).shutdown = true ∧
    (test_mcp_permissions []).shutdown = true ∧
    (test_basic_functionality []).shutdown = true ∧
    (test_tool_execution []).shutdown = true ∧
    (debug_session []).shutdown = true :=
  ⟨(c9_shutdown_on_return [] 0).1 (by decide), (c9_shutdown_on_return [] 0).2.1 (by decide),
   (c9_shutdown_on_return [] 0).2.2.1 (by decide),
   (c9_shutdown_on_return [] 0).2.2.2.1 (by decide),
   (c9_shutdown_on_return [] 0).2.2.2.2.1 (by decide),
   (c9_shutdown_on_return [] 0).2.2.2.2.2.1 (by decide),
   (c9_shutdown_on_return [] 0).2.2.2.2.2.2 (by decide)⟩

/-- Claim C10, counterexample.  On a run of test_simple.py whose
tools/list response lacks a result field, the first success summary line
(Basic MCP functionality working) is still printed — before the NameError
is raised by the second summary statement — contradicting the claim that
the success summary lines are printed only on runs where tools/list
returned a result. -/
theorem c10_success_line_without_result_cex :
    (Json.obj [("id", Json.num 2), ("error", Json.obj [])]).get? "result" = none ∧
    hasLbl (test_basic_functionality
      [.line (.jsonOf (simpleInitOk "Forge" "0.1.0" "2024-11-05")),
       .line (.jsonOf (.obj [("id", .num 2), ("error", .obj [])]))]).events
      "Basic MCP functionality working" = true ∧
    (test_basic_functionality
      [.line (.jsonOf (simpleInitOk "Forge" "0.1.0" "2024-11-05")),
       .line (.jsonOf (.obj [("id", .num 2), ("error", .obj [])]))]).outcome
      = .done (some .nameErr) none :=
  ⟨rfl, rfl, rfl⟩

/-- Claim C10, amended.  On every run of test_simple.py that reaches
tools/list and whose response has no result member: the failure report is
printed, the first success summary line is printed anyway, the second
summary statement raises NameError (the name tools was never bound) which
the generic handler catches, and the remaining two summary lines are not
printed. -/
theorem c10_summary_nameerror (n v p : String) (r2 : Json) (rest : List Item)
    (h2 : pyIn "result" r2 = .ok false) :
    test_basic_functionality
        (.line (.jsonOf (simpleInitOk n v p)) :: .line (.jsonOf r2) :: rest) =
      ⟨[.out "Testing Forge MCP Server", .out "1 Testing initialization", .send simpInit,
        .recv, .out "Server name and version", .out "Protocol version",
        .out "2 Testing tools list", .send simpTools, .recv, .out "Failed tools list",
        .out "Basic MCP functionality working", .out "Error"],
       .done (some .nameErr) none, true⟩ ∧
    hasLbl (test_basic_functionality
        (.line (.jsonOf (simpleInitOk n v p)) :: .line (.jsonOf r2) :: rest)).events
      "Basic MCP functionality working" = true ∧
    hasLbl (test_basic_functionality
        (.line (.jsonOf (simpleInitOk n v p)) :: .line (.jsonOf r2) :: rest)).events
      "Available tools filesystem tools" = false ∧
    hasLbl (test_basic_functionality
        (.line (.jsonOf (simpleInitOk n v p)) :: .line (.jsonOf r2) :: rest)).events
      "Ready for Claude Code integration via stdio transport" = false := by
  have ht : tsTools (.line (.jsonOf r2) :: rest) =
      ⟨[.out "2 Testing tools list", .send simpTools, .recv, .out "Failed tools list",
        .out "Basic MCP functionality working", .out "Error"],
       .done (some .nameErr) none, true⟩ := by
    simp [tsTools, takeLine, h2]
  have h : test_basic_functionality
        (.line (.jsonOf (simpleInitOk n v p)) :: .line (.jsonOf r2) :: rest) =
      ⟨[.out "Testing Forge MCP Server", .out "1 Testing initialization", .send simpInit,
        .recv, .out "Server name and version", .out "Protocol version",
        .out "2 Testing tools list", .send simpTools, .recv, .out "Failed tools list",
        .out "Basic MCP functionality working", .out "Error"],
       .done (some .nameErr) none, true⟩ := by
    simp [test_basic_functionality, takeLine, simpleInitOk, pyIn, pyIndex,
      kvsFind, Json.get?, withPre, ht]
  refine ⟨h, ?_, ?_, ?_⟩
  all_goals rw [h]
  all_goals rfl

/-- Claim C10, witness for the amended theorem at a concrete run. -/
theorem c10_summary_nameerror_witness :
    pyIn "result" (Json.obj [("error", Json.obj [])]) = .ok false ∧
    hasLbl (test_basic_functionality
      [.line (.jsonOf (simpleInitOk "srv" "1.0" "2024-11-05")),
       .line (.jsonOf (.obj [("error", .obj [])]))]).events
      "Basic MCP functionality working" = true :=
  ⟨rfl, (c10_summary_nameerror "srv" "1.0" "2024-11-05" (.obj [("error", .obj [])]) []
      rfl).2.1⟩
